import Mathlib

/-!
Shallow embedding of the ChamPDF video-rebranding backend
(`src/backend/video_processor.py` and `src/backend/main.py`) and proofs of
the specification claims about it.

Python machine arithmetic notes: all widths/heights/region sizes are
non-negative Python ints; `int(base * (width / ref))` with non-negative
operands equals floor division `(base * width) / ref`, embedded as `Nat`
division.  `max(0, x)` on a possibly negative int is embedded on `Int`.
-/

namespace ChamPDF

/-- A base watermark region from `VideoProcessor.WATERMARK_REGIONS`
(all fields non-negative ints in the source table). -/
structure BaseRegion where
  x : Nat
  y : Nat
  w : Nat
  h : Nat
deriving Repr, DecidableEq

/-- A computed watermark region (`_calculate_watermark_region` result dict):
`x`/`y` are produced by `max(0, ...)` over a possibly negative difference,
`w`/`h` by truncating a non-negative product. -/
structure Region where
  x : Int
  y : Int
  w : Nat
  h : Nat
deriving Repr, DecidableEq

/-- `VideoProcessor.WATERMARK_REGIONS` dictionary (video_processor.py lines 18-23). -/
def watermarkRegions (key : String) : Option BaseRegion :=
  if key = "720p" then some ⟨1100, 660, 180, 60⟩
  else if key = "1080p" then some ⟨1700, 1000, 220, 80⟩
  else if key = "480p" then some ⟨700, 440, 140, 40⟩
  else if key = "4k" then some ⟨3600, 2080, 400, 160⟩
  else none

/-- `VideoProcessor._get_resolution_key` (video_processor.py lines 103-112).
The `width` argument is accepted and ignored, as in the source. -/
def getResolutionKey (width height : Nat) : String :=
  if height ≥ 2160 then "4k"
  else if height ≥ 1080 then "1080p"
  else if height ≥ 720 then "720p"
  else "480p"

/-- Reference width used by the `scale_x` expression in
`_calculate_watermark_region` (video_processor.py line 125). -/
def refWidth (resolution : String) : Nat :=
  if resolution = "4k" then 3840
  else if resolution = "1080p" then 1920
  else if resolution = "720p" then 1280
  else 854

/-- Reference height used by the `scale_y` expression in
`_calculate_watermark_region` (video_processor.py line 126). -/
def refHeight (resolution : String) : Nat :=
  if resolution = "4k" then 2160
  else if resolution = "1080p" then 1080
  else if resolution = "720p" then 720
  else 480

/-- `VideoProcessor._calculate_watermark_region` (video_processor.py lines
114-149).  `int(base_region[field] * scale)` on non-negative values is `Nat`
floor division; `max(0, coordinate)` is `max` on `Int`. -/
def calculateWatermarkRegion (width height : Nat) (position : String) : Region :=
  let resolution := getResolutionKey width height
  let base := (watermarkRegions resolution).getD ⟨1100, 660, 180, 60⟩
  let region_w : Nat := base.w * width / refWidth resolution
  let region_h : Nat := base.h * height / refHeight resolution
  let xy : Int × Int :=
    if position = "bottom-right" then
      ((width : Int) - region_w - 20, (height : Int) - region_h - 20)
    else if position = "bottom-left" then
      (20, (height : Int) - region_h - 20)
    else if position = "top-right" then
      ((width : Int) - region_w - 20, 20)
    else if position = "top-left" then
      (20, 20)
    else
      ((width : Int) - region_w - 20, (height : Int) - region_h - 20)
  ⟨max 0 xy.1, max 0 xy.2, region_w, region_h⟩

/-- `VideoProcessor._get_logo_position` (video_processor.py lines 151-159). -/
def getLogoPosition (position : String) : String :=
  if position = "bottom-right" then "W-w-20:H-h-20"
  else if position = "bottom-left" then "20:H-h-20"
  else if position = "top-right" then "W-w-20:20"
  else if position = "top-left" then "20:20"
  else "W-w-20:H-h-20"

/-- The delogo filter expression built inside `VideoProcessor.process`
(video_processor.py lines 209 and 230-232): the string
`delogo=x=X:y=Y:w=W:h=H:show=0` with the region's numbers interpolated. -/
def delogoFilter (r : Region) : String :=
  "delogo=x=" ++ toString r.x ++ ":y=" ++ toString r.y ++
    ":w=" ++ toString r.w ++ ":h=" ++ toString r.h ++ ":show=0"

/-- Middle section of the with-logo `filter_complex` string, between the
delogo filter and the overlay position expression
(video_processor.py lines 208-212). -/
def filterGlue : String :=
  "[delogoed];[1:v]scale=120:-1[logo];[delogoed][logo]overlay="

/-- The `filter_complex` expression built in the with-logo branch of
`VideoProcessor.process` (video_processor.py lines 208-212). -/
def filterComplexWithLogo (r : Region) (logoPosition : String) : String :=
  "[0:v]" ++ delogoFilter r ++ filterGlue ++ logoPosition ++ ":format=auto[out]"

/-- The FFmpeg argument list built by `VideoProcessor.process`
(video_processor.py lines 206-244): with-logo variant when a logo path is
supplied, delogo-only variant otherwise. -/
def buildCommand (inputPath outputPath : String) (r : Region)
    (logoPath : Option String) (position : String) : List String :=
  match logoPath with
  | some lp =>
      ["ffmpeg", "-y", "-i", inputPath, "-i", lp,
       "-filter_complex", filterComplexWithLogo r (getLogoPosition position),
       "-map", "[out]", "-map", "0:a?",
       "-c:v", "libx264", "-crf", "18", "-preset", "fast",
       "-c:a", "copy", "-movflags", "+faststart", outputPath]
  | none =>
      ["ffmpeg", "-y", "-i", inputPath,
       "-vf", delogoFilter r,
       "-c:v", "libx264", "-crf", "18", "-preset", "fast",
       "-c:a", "copy", "-movflags", "+faststart", outputPath]

/-- Python `s[-n:]`: the last at-most-`n` characters of `s`. -/
def lastChars (n : Nat) (s : String) : String :=
  ⟨s.data.drop (s.data.length - n)⟩

/-- The tail of `VideoProcessor.process` after the FFmpeg subprocess exits
(video_processor.py lines 254-262): non-zero exit code fails with a
diagnostic from the last 500 characters of stderr (`"Unknown error"` when
stderr is empty, Python bytes truthiness); exit code zero with a missing
output file also fails; otherwise success. -/
def runResult (returncode : Int) (stderr : String) (outputExists : Bool) :
    Bool × Option String :=
  if returncode ≠ 0 then
    let errorMsg := if stderr ≠ "" then lastChars 500 stderr else "Unknown error"
    (false, some ("FFmpeg error: " ++ errorMsg))
  else if ¬ outputExists then
    (false, some "Output file was not created")
  else
    (true, none)

/-- `VideoProcessor.logo_exists` (video_processor.py lines 63-68).  The
filesystem is abstracted as the list `fs` of existing paths; the resolved
logo directory is `logoDir`. -/
def logo_exists (fs : List String) (logoDir preset : String) : Bool :=
  if preset = "none" then true
  else fs.contains (logoDir ++ "/" ++ preset ++ ".png")

/-- `VideoProcessor.get_logo_path` (video_processor.py lines 70-75):
`none` output means no overlay will be applied. -/
def get_logo_path (fs : List String) (logoDir preset : String) : Option String :=
  if preset = "none" then none
  else
    let logoPath := logoDir ++ "/" ++ preset ++ ".png"
    if fs.contains logoPath then some logoPath else none

/-- One entry of the ffprobe `streams` list, with the fields
`VideoProcessor.process` reads (`codec_type`, `width`, `height`);
`none` width/height models an absent dictionary key. -/
structure StreamInfo where
  codecType : String
  width : Option Nat
  height : Option Nat
deriving Repr, DecidableEq

/-- Environment of one `VideoProcessor.process` call: the outcomes of its
side-effecting steps.  `probe = none` models a falsy (`{}`) result of
`get_video_info`; `raised` models an exception thrown anywhere inside the
`try` body; the remaining fields are the FFmpeg run's observables. -/
structure ProcEnv where
  probe : Option (List StreamInfo)
  raised : Option String
  fs : List String
  logoDir : String
  returncode : Int
  stderr : String
  outputExists : Bool

/-- The `for stream in info.get("streams", [])` loop of
`VideoProcessor.process` (video_processor.py lines 187-191): first stream
whose `codec_type` is `"video"`. -/
def findVideoStream : List StreamInfo → Option StreamInfo
  | [] => none
  | s :: rest => if s.codecType = "video" then some s else findVideoStream rest

/-- Body of the `try` block of `VideoProcessor.process`
(video_processor.py lines 180-262); `.error` is an exception escaping to
the `except` clause. -/
def processBody (env : ProcEnv)
    (inputPath outputPath logoPreset watermarkPosition : String) :
    Except String (Bool × Option String) :=
  match env.raised with
  | some e => .error e
  | none =>
    match env.probe with
    | none => .ok (false, some "Could not read video metadata")
    | some streams =>
      match findVideoStream streams with
      | none => .ok (false, some "No video stream found")
      | some videoStream =>
        let width := videoStream.width.getD 1280
        let height := videoStream.height.getD 720
        let region := calculateWatermarkRegion width height watermarkPosition
        let logoPath := get_logo_path env.fs env.logoDir logoPreset
        let _cmd := buildCommand inputPath outputPath region logoPath watermarkPosition
        .ok (runResult env.returncode env.stderr env.outputExists)

/-- `VideoProcessor.process` (video_processor.py lines 161-265): the body
wrapped in `except Exception as e: return False, str(e)`. -/
def process (env : ProcEnv)
    (inputPath outputPath logoPreset watermarkPosition : String) :
    Bool × Option String :=
  match processBody env inputPath outputPath logoPreset watermarkPosition with
  | .ok r => r
  | .error e => (false, some e)

/-- The two temporary files of one job (main.py lines 201-202). -/
inductive FileId
  | input
  | output
deriving Repr, DecidableEq

/-- Observable events of one `process_video` request: temporary-file
creations and deletions (`cleanup_files` calls / `aiofiles.open` /
FFmpeg writing the output), semaphore permit acquisition and release,
and the start of the response. -/
inductive Ev
  | create (f : FileId)
  | delete (f : FileId)
  | acquire
  | release
  | respond
deriving Repr, DecidableEq

/-- Terminal outcome of one `process_video` request. -/
inductive Outcome
  | validationError
  | sizeError
  | processingError (msg : Option String)
  | unexpectedError (msg : String)
  | delivered
deriving Repr, DecidableEq

/-- HTTP status of each outcome (main.py lines 178, 186, 194, 214, 232,
254; `FileResponse` defaults to 200). -/
def statusCode : Outcome → Nat
  | .validationError => 400
  | .sizeError => 413
  | .processingError _ => 500
  | .unexpectedError _ => 500
  | .delivered => 200

/-- `ALLOWED_VIDEO_EXTENSIONS` (main.py line 77). -/
def allowedVideoExtensions : List String := [".mp4", ".mov", ".webm", ".avi"]

/-- `valid_presets` (main.py line 184). -/
def validPresets : List String := ["lakeb2b", "champions", "ampliz", "none"]

/-- `valid_positions` (main.py line 192). -/
def validPositions : List String := ["bottom-right", "bottom-left", "top-right", "top-left"]

/-- The upload staging loop of `process_video` (main.py lines 206-218):
fold over chunk sizes keeping the running `file_size` counter; `none`
models the size-limit abort (the counter, current chunk included, exceeds
the maximum before the chunk is written). -/
def stageFile (maxFileSize : Nat) : List Nat → Nat → Option Nat
  | [], fileSize => some fileSize
  | chunk :: rest, fileSize =>
      let fileSize := fileSize + chunk
      if fileSize > maxFileSize then none
      else stageFile maxFileSize rest fileSize

/-- Environment of one `process_video` request: request parameters plus the
outcomes of its side-effecting steps.  `stageRaises` models an unexpected
exception while staging the upload (after the input file is created);
`procSuccess`/`procError` are `processor.process`'s returned pair;
`procCreatesOutput` records whether FFmpeg created (part of) the output
file on a failed run. -/
structure JobEnv where
  fileExt : String
  logoPreset : String
  watermarkPosition : String
  chunks : List Nat
  maxFileSize : Nat
  stageRaises : Option String
  procSuccess : Bool
  procError : Option String
  procCreatesOutput : Bool

/-- The `process_video` request handler (main.py lines 161-254) as an
outcome plus the ordered list of file/permit events it performs:
validation failures touch nothing; a size-limit abort deletes the partial
input (main.py lines 211-217) and the re-raised `HTTPException` skips the
outer `except Exception` cleanup (line 249-250); an unexpected exception
hits `cleanup_files(input_path, output_path)` (line 253); a processing
failure hits `cleanup_files(input_path)` only (line 231); success schedules
`cleanup_files(input_path, output_path)` after the response (line 235). -/
def processVideo (env : JobEnv) : Outcome × List Ev :=
  if ¬ (allowedVideoExtensions.contains env.fileExt) then (.validationError, [])
  else if ¬ (validPresets.contains env.logoPreset) then (.validationError, [])
  else if ¬ (validPositions.contains env.watermarkPosition) then (.validationError, [])
  else
    match env.stageRaises with
    | some e => (.unexpectedError e, [.create .input, .delete .input, .delete .output])
    | none =>
      match stageFile env.maxFileSize env.chunks 0 with
      | none => (.sizeError, [.create .input, .delete .input])
      | some _ =>
        let procEvs : List Ev :=
          if env.procSuccess ∨ env.procCreatesOutput then [.create .output] else []
        let evs : List Ev := [.create .input, .acquire] ++ procEvs ++ [.release]
        if env.procSuccess then
          (.delivered, evs ++ [.respond, .delete .input, .delete .output])
        else
          (.processingError env.procError, evs ++ [.delete .input])

/-- Abstract state of the processing-permit pool and the jobs using it:
counts of jobs waiting for a permit, holding one (transform in flight),
and finished, plus the free permits of the `asyncio.Semaphore`. -/
structure SemState where
  waiting : Nat
  transforming : Nat
  finished : Nat
  available : Nat
deriving Repr, DecidableEq

/-- Transitions of the permit pool, from the `async with process_semaphore`
block of `process_video` (main.py lines 221-227): a waiting job may start
its transform only by taking a free permit; finishing a transform returns
the permit. -/
inductive SemStep : SemState → SemState → Prop
  | start {s : SemState} (hw : 0 < s.waiting) (ha : 0 < s.available) :
      SemStep s ⟨s.waiting - 1, s.transforming + 1, s.finished, s.available - 1⟩
  | finish {s : SemState} (ht : 0 < s.transforming) :
      SemStep s ⟨s.waiting, s.transforming - 1, s.finished + 1, s.available + 1⟩

/-- Initial state: `jobs` simultaneous requests submitted, all permits of
the semaphore (created with `settings.MAX_CONCURRENT_JOBS` permits,
main.py line 37) free. -/
def initState (jobs permits : Nat) : SemState := ⟨jobs, 0, 0, permits⟩

/-- Reachability of the permit-pool system from `initState jobs permits`. -/
inductive SemReach (permits jobs : Nat) : SemState → Prop
  | init : SemReach permits jobs (initState jobs permits)
  | step {s t : SemState} : SemReach permits jobs s → SemStep s t →
      SemReach permits jobs t

/-- Environment used to witness the exception clause of
`VideoProcessor.process`: the probe would fail but an exception is raised
first. -/
def c10Env : ProcEnv :=
  { probe := none, raised := some "boom", fs := [], logoDir := "assets/logos",
    returncode := 0, stderr := "", outputExists := true }

/-- A request whose FFmpeg run fails after partially writing the output
file: valid parameters, staging succeeds, the processor reports failure,
and FFmpeg has created (part of) the output file. -/
def c1Env : JobEnv :=
  { fileExt := ".mp4", logoPreset := "none", watermarkPosition := "bottom-right",
    chunks := [10], maxFileSize := 100, stageRaises := none,
    procSuccess := false, procError := some "FFmpeg error: boom",
    procCreatesOutput := true }

/-- A request that succeeds end to end (delivered path). -/
def c1DeliveredEnv : JobEnv :=
  { fileExt := ".mp4", logoPreset := "lakeb2b", watermarkPosition := "top-left",
    chunks := [10], maxFileSize := 100, stageRaises := none,
    procSuccess := true, procError := none, procCreatesOutput := false }

/-- A request whose upload exceeds the configured maximum file size during
staging (60 + 60 > 100). -/
def c6Env : JobEnv :=
  { fileExt := ".mp4", logoPreset := "none", watermarkPosition := "bottom-right",
    chunks := [60, 60], maxFileSize := 100, stageRaises := none,
    procSuccess := false, procError := none, procCreatesOutput := false }

/-! Helper lemmas. -/

/-- Characters that `Nat.digitChar` can produce. -/
def digitChars : List Char := "0123456789abcdef*".data

/-- Characters that `toString` on `Int` can produce. -/
def numChars : List Char := "0123456789abcdef*-".data

/-- Non-numeric characters occurring in the delogo filter string. -/
def delogoLitChars : List Char := "delogo=xywhs:0".data

theorem digitChar_mem_of_lt (m : Nat) (h : m < 16) : Nat.digitChar m ∈ digitChars := by
  interval_cases m <;> decide

theorem toDigitsCore_chars : ∀ (fuel n : Nat) (ds : List Char),
    (∀ c ∈ ds, c ∈ digitChars) → ∀ c ∈ Nat.toDigitsCore 10 fuel n ds, c ∈ digitChars := by
  intro fuel
  induction fuel with
  | zero => intro n ds hds c hc; exact hds c hc
  | succ fuel ih =>
    intro n ds hds c hc
    simp only [Nat.toDigitsCore] at hc
    split at hc
    · rcases List.mem_cons.mp hc with rfl | hmem
      · exact digitChar_mem_of_lt _ (by omega)
      · exact hds c hmem
    · refine ih _ _ ?_ c hc
      intro d hd
      rcases List.mem_cons.mp hd with rfl | hmem
      · exact digitChar_mem_of_lt _ (by omega)
      · exact hds d hmem

theorem natRepr_chars (n : Nat) : ∀ c ∈ (Nat.repr n).data, c ∈ digitChars := by
  intro c hc
  exact toDigitsCore_chars (n + 1) n [] (by intro d hd; cases hd) c hc

theorem digitChars_subset_numChars : digitChars ⊆ numChars := by decide

theorem intRepr_chars (i : Int) : ∀ c ∈ (toString i).data, c ∈ numChars := by
  intro c hc
  cases i with
  | ofNat m => exact digitChars_subset_numChars (natRepr_chars m c hc)
  | negSucc m =>
      have hd : (toString (Int.negSucc m)).data = '-' :: (Nat.repr (m + 1)).data := by
        show (Int.repr (Int.negSucc m)).data = _
        simp [Int.repr, String.data_append]
      rw [hd] at hc
      rcases List.mem_cons.mp hc with rfl | hmem
      · decide
      · exact digitChars_subset_numChars (natRepr_chars (m + 1) c hmem)

theorem delogoFilter_chars (r : Region) :
    ∀ c ∈ (delogoFilter r).data, c ∈ numChars ∨ c ∈ delogoLitChars := by
  intro c hc
  simp only [delogoFilter, String.data_append, List.mem_append] at hc
  have hlit : ∀ s : String, s.data ⊆ delogoLitChars → c ∈ s.data → c ∈ delogoLitChars :=
    fun s hs hmem => hs hmem
  rcases hc with ((((((((h | h) | h) | h) | h) | h) | h) | h) | h)
  · exact Or.inr (hlit "delogo=x=" (by decide) h)
  · exact Or.inl (intRepr_chars r.x c h)
  · exact Or.inr (hlit ":y=" (by decide) h)
  · exact Or.inl (intRepr_chars r.y c h)
  · exact Or.inr (hlit ":w=" (by decide) h)
  · exact Or.inl (digitChars_subset_numChars (natRepr_chars r.w c h))
  · exact Or.inr (hlit ":h=" (by decide) h)
  · exact Or.inl (digitChars_subset_numChars (natRepr_chars r.h c h))
  · exact Or.inr (hlit ":show=0" (by decide) h)

/-- The delogo filter expression never contains the overlay keyword
(it has no letter `v` at all). -/
theorem no_overlay_in_delogoFilter (r : Region) :
    ¬ ("overlay".data <:+: (delogoFilter r).data) := by
  intro h
  have hv : 'v' ∈ (delogoFilter r).data := h.subset (by decide)
  rcases delogoFilter_chars r 'v' hv with h1 | h1 <;> revert h1 <;> decide

theorem refWidth_pos (resolution : String) : 0 < refWidth resolution := by
  unfold refWidth
  repeat' split
  all_goals decide

theorem refHeight_pos (resolution : String) : 0 < refHeight resolution := by
  unfold refHeight
  repeat' split
  all_goals decide

/-- The region width only depends on the frame width and resolution class. -/
theorem calculateWatermarkRegion_w (width height : Nat) (position : String) :
    (calculateWatermarkRegion width height position).w =
      ((watermarkRegions (getResolutionKey width height)).getD ⟨1100, 660, 180, 60⟩).w * width /
        refWidth (getResolutionKey width height) := rfl

/-- The region height only depends on the frame height and resolution class. -/
theorem calculateWatermarkRegion_h (width height : Nat) (position : String) :
    (calculateWatermarkRegion width height position).h =
      ((watermarkRegions (getResolutionKey width height)).getD ⟨1100, 660, 180, 60⟩).h * height /
        refHeight (getResolutionKey width height) := rfl

theorem two_mul_div_le (a n : Nat) (hn : 0 < n) : 2 * (a / n) ≤ 2 * a / n := by
  rw [Nat.le_div_iff_mul_le hn]
  have h := Nat.div_mul_le_self a n
  calc 2 * (a / n) * n = 2 * (a / n * n) := by ring
    _ ≤ 2 * a := by omega

theorem two_mul_div_le_succ (a n : Nat) (hn : 0 < n) : 2 * a / n ≤ 2 * (a / n) + 1 := by
  have hlt : 2 * a / n < 2 * (a / n) + 2 := by
    rw [Nat.div_lt_iff_lt_mul hn]
    have h := Nat.lt_div_mul_add (a := a) hn
    calc 2 * a < 2 * (a / n * n + n) := by omega
      _ = (2 * (a / n) + 2) * n := by ring
  omega

/-- The staging loop aborts iff the running byte counter exceeds the
maximum after some chunk. -/
theorem stageFile_none_iff (maxFileSize : Nat) :
    ∀ (chunks : List Nat) (acc : Nat), acc ≤ maxFileSize →
      (stageFile maxFileSize chunks acc = none ↔
        ∃ k, maxFileSize < acc + (List.take k chunks).sum) := by
  intro chunks
  induction chunks with
  | nil =>
      intro acc hacc
      simp only [stageFile, List.take_nil, List.sum_nil]
      constructor
      · intro h; cases h
      · rintro ⟨k, hk⟩; omega
  | cons c cs ih =>
      intro acc hacc
      simp only [stageFile]
      by_cases h : acc + c > maxFileSize
      · rw [if_pos h]
        constructor
        · intro _
          exact ⟨1, by simpa using h⟩
        · intro _; rfl
      · rw [if_neg h, ih (acc + c) (by omega)]
        constructor
        · rintro ⟨k, hk⟩
          refine ⟨k + 1, ?_⟩
          simpa [List.take_succ_cons, Nat.add_assoc] using hk
        · rintro ⟨k, hk⟩
          cases k with
          | zero => simp at hk; omega
          | succ k =>
              refine ⟨k, ?_⟩
              simpa [List.take_succ_cons, Nat.add_assoc] using hk

/-- Permits held plus permits free is constant along any run. -/
theorem semReach_invariant {permits jobs : Nat} {s : SemState}
    (h : SemReach permits jobs s) : s.transforming + s.available = permits := by
  induction h with
  | init => simp [initState]
  | step hr hstep ih =>
      cases hstep with
      | start hw ha => simp only at *; omega
      | finish ht => simp only at *; omega

theorem mem_infix_of_middle {l m : List Char} (x y : List Char) (h : l <:+: m) :
    l <:+: x ++ m ++ y :=
  h.trans (List.infix_append x m y)

/-- `runResult` always yields a success with no message or a failure with
a message. -/
theorem runResult_shape (returncode : Int) (stderr : String) (outputExists : Bool) :
    runResult returncode stderr outputExists = (true, none) ∨
      ∃ m, runResult returncode stderr outputExists = (false, some m) := by
  unfold runResult
  split
  · exact Or.inr ⟨_, rfl⟩
  · split
    · exact Or.inr ⟨_, rfl⟩
    · exact Or.inl rfl

/-! Claim theorems. -/

/-- Claim C2: for a 1920×1080 input with watermark position "bottom-right"
and logo preset "none", the resolution class resolves to "1080p" with scale
factors 1.0/1.0, the calculated watermark region is exactly x=1680, y=980,
w=220, h=80, and the built FFmpeg command contains only a delogo filter
referencing those four numbers and no overlay stage. -/
theorem c2_example_scenario :
    getResolutionKey 1920 1080 = "1080p" ∧
    ((1920 : ℚ) / (refWidth (getResolutionKey 1920 1080) : ℚ) = 1 ∧
      (1080 : ℚ) / (refHeight (getResolutionKey 1920 1080) : ℚ) = 1) ∧
    calculateWatermarkRegion 1920 1080 "bottom-right" = ⟨1680, 980, 220, 80⟩ ∧
    buildCommand "in.mp4" "out.mp4"
        (calculateWatermarkRegion 1920 1080 "bottom-right") none "bottom-right" =
      ["ffmpeg", "-y", "-i", "in.mp4",
       "-vf", "delogo=x=1680:y=980:w=220:h=80:show=0",
       "-c:v", "libx264", "-crf", "18", "-preset", "fast",
       "-c:a", "copy", "-movflags", "+faststart", "out.mp4"] ∧
    ∀ a ∈ buildCommand "in.mp4" "out.mp4"
        (calculateWatermarkRegion 1920 1080 "bottom-right") none "bottom-right",
      ¬ ("overlay".data <:+: a.data) := by
  have h1 : refWidth (getResolutionKey 1920 1080) = 1920 := rfl
  have h2 : refHeight (getResolutionKey 1920 1080) = 1080 := rfl
  refine ⟨rfl, ⟨?_, ?_⟩, by decide, by decide, by decide⟩
  · rw [h1]; norm_num
  · rw [h2]; norm_num

/-- Claim C3 counterexample: for a 1×1 frame the resolved class's base
region has positive dimensions (140×40), yet the calculated region has
width 0 and height 0, refuting "region width > 0 and region height > 0 for
all (width, height) pairs". -/
theorem c3_counterexample :
    0 < ((watermarkRegions (getResolutionKey 1 1)).getD ⟨1100, 660, 180, 60⟩).w ∧
    0 < ((watermarkRegions (getResolutionKey 1 1)).getD ⟨1100, 660, 180, 60⟩).h ∧
    ¬ (0 < (calculateWatermarkRegion 1 1 "bottom-right").w ∧
        0 < (calculateWatermarkRegion 1 1 "bottom-right").h) := by decide

/-- Claim C3 (amended): for all (width, height) pairs and every watermark
position, the region calculator returns x ≥ 0 and y ≥ 0; the region width
(resp. height) is positive provided the base width (resp. height) of the
resolved class times the frame width (resp. height) reaches the class's
reference width (resp. height) — for implausibly tiny frames the truncated
scaled dimensions can be 0. -/
theorem c3_region_bounds (width height : Nat) (position : String) :
    0 ≤ (calculateWatermarkRegion width height position).x ∧
    0 ≤ (calculateWatermarkRegion width height position).y ∧
    (refWidth (getResolutionKey width height) ≤
        ((watermarkRegions (getResolutionKey width height)).getD
          ⟨1100, 660, 180, 60⟩).w * width →
      0 < (calculateWatermarkRegion width height position).w) ∧
    (refHeight (getResolutionKey width height) ≤
        ((watermarkRegions (getResolutionKey width height)).getD
          ⟨1100, 660, 180, 60⟩).h * height →
      0 < (calculateWatermarkRegion width height position).h) := by
  refine ⟨le_max_left 0 _, le_max_left 0 _, ?_, ?_⟩
  · intro h
    rw [calculateWatermarkRegion_w]
    exact Nat.div_pos h (refWidth_pos _)
  · intro h
    rw [calculateWatermarkRegion_h]
    exact Nat.div_pos h (refHeight_pos _)

theorem c3_region_bounds_witness :
    0 < (calculateWatermarkRegion 1920 1080 "bottom-right").w ∧
    0 < (calculateWatermarkRegion 1920 1080 "bottom-right").h :=
  ⟨(c3_region_bounds 1920 1080 "bottom-right").2.2.1 (by decide),
   (c3_region_bounds 1920 1080 "bottom-right").2.2.2 (by decide)⟩

/-- Claim C4 counterexample: doubling an 854×480 frame to 1708×960 moves
the resolution class from "480p" to "720p" and the region width goes from
140 to 240, which is short of doubling (280) by more than any integer
truncation could explain. -/
theorem c4_counterexample :
    (calculateWatermarkRegion 854 480 "bottom-right").w = 140 ∧
    (calculateWatermarkRegion (2 * 854) (2 * 480) "bottom-right").w = 240 ∧
    (calculateWatermarkRegion (2 * 854) (2 * 480) "bottom-right").w + 1 <
      2 * (calculateWatermarkRegion 854 480 "bottom-right").w := by decide

/-- Claim C4 (amended): doubling both width and height doubles the region
width and height up to integer truncation (within 1), provided the
resolution class is unchanged by the doubling (which fails, e.g., from
480p to 720p); and the class boundary behavior holds: height exactly 720
classifies as "720p" and height 719 as "480p". -/
theorem c4_doubling (width height : Nat) (position : String)
    (hkey : getResolutionKey (2 * width) (2 * height) = getResolutionKey width height) :
    (2 * (calculateWatermarkRegion width height position).w ≤
        (calculateWatermarkRegion (2 * width) (2 * height) position).w ∧
      (calculateWatermarkRegion (2 * width) (2 * height) position).w ≤
        2 * (calculateWatermarkRegion width height position).w + 1) ∧
    (2 * (calculateWatermarkRegion width height position).h ≤
        (calculateWatermarkRegion (2 * width) (2 * height) position).h ∧
      (calculateWatermarkRegion (2 * width) (2 * height) position).h ≤
        2 * (calculateWatermarkRegion width height position).h + 1) ∧
    (∀ w : Nat, getResolutionKey w 720 = "720p") ∧
    (∀ w : Nat, getResolutionKey w 719 = "480p") := by
  refine ⟨?_, ?_, fun _ => rfl, fun _ => rfl⟩
  · rw [calculateWatermarkRegion_w, calculateWatermarkRegion_w, hkey]
    have hb : ((watermarkRegions (getResolutionKey width height)).getD
          ⟨1100, 660, 180, 60⟩).w * (2 * width) =
        2 * (((watermarkRegions (getResolutionKey width height)).getD
          ⟨1100, 660, 180, 60⟩).w * width) := by ring
    rw [hb]
    exact ⟨two_mul_div_le _ _ (refWidth_pos _), two_mul_div_le_succ _ _ (refWidth_pos _)⟩
  · rw [calculateWatermarkRegion_h, calculateWatermarkRegion_h, hkey]
    have hb : ((watermarkRegions (getResolutionKey width height)).getD
          ⟨1100, 660, 180, 60⟩).h * (2 * height) =
        2 * (((watermarkRegions (getResolutionKey width height)).getD
          ⟨1100, 660, 180, 60⟩).h * height) := by ring
    rw [hb]
    exact ⟨two_mul_div_le _ _ (refHeight_pos _), two_mul_div_le_succ _ _ (refHeight_pos _)⟩

theorem c4_doubling_witness :
    2 * (calculateWatermarkRegion 100 100 "bottom-right").w ≤
      (calculateWatermarkRegion (2 * 100) (2 * 100) "bottom-right").w :=
  ((c4_doubling 100 100 "bottom-right" (by decide)).1).1

set_option maxRecDepth 4000 in
/-- Claim C5: the FFmpeg run reports success iff the exit code is zero and
the declared output path exists afterward; on a non-zero exit code the
diagnostic is derived from at most the last 500 characters of captured
stderr (or a fixed message when stderr is empty). -/
theorem c5_run_reporting (returncode : Int) (stderr : String) (outputExists : Bool) :
    ((runResult returncode stderr outputExists).1 = true ↔
      returncode = 0 ∧ outputExists = true) ∧
    (returncode ≠ 0 →
      ∃ d, (runResult returncode stderr outputExists).2 =
          some ("FFmpeg error: " ++ d) ∧
        ((d.data <:+ stderr.data ∧ d.length ≤ 500) ∨
          (stderr = "" ∧ d = "Unknown error"))) := by
  constructor
  · constructor
    · intro h
      by_cases hrc : returncode = 0
      · by_cases hex : outputExists = true
        · exact ⟨hrc, hex⟩
        · exfalso; simp [runResult, hrc, hex] at h
      · exfalso; simp [runResult, hrc] at h
    · rintro ⟨hrc, hex⟩
      simp [runResult, hrc, hex]
  · intro hrc
    by_cases hse : stderr = ""
    · refine ⟨"Unknown error", ?_, Or.inr ⟨hse, rfl⟩⟩
      simp [runResult, hrc, hse]
    · refine ⟨lastChars 500 stderr, ?_, Or.inl ⟨?_, ?_⟩⟩
      · simp [runResult, hrc, hse]
      · have hdata : (lastChars 500 stderr).data =
            stderr.data.drop (stderr.data.length - 500) := rfl
        rw [hdata]
        exact List.drop_suffix (stderr.data.length - 500) stderr.data
      · show (stderr.data.drop (stderr.data.length - 500)).length ≤ 500
        rw [List.length_drop]
        omega

theorem c5_run_reporting_witness :
    ∃ d, (runResult 1 "boom" false).2 = some ("FFmpeg error: " ++ d) ∧
      ((d.data <:+ "boom".data ∧ d.length ≤ 500) ∨
        ("boom" = "" ∧ d = "Unknown error")) :=
  (c5_run_reporting 1 "boom" false).2 (by decide)

/-- Claim C7: preset "none" always resolves with no overlay and is never
reported unavailable; a named preset resolves to `<dir>/<preset>.png` iff
that file exists and to no path otherwise, with availability mirroring
file existence; resolution is a pure function of the preset and the
filesystem state (so repeated calls under an unchanged filesystem agree),
and it is total (never raises). -/
theorem c7_logo_resolution (fs : List String) (logoDir preset : String) :
    get_logo_path fs logoDir "none" = none ∧
    logo_exists fs logoDir "none" = true ∧
    (preset ≠ "none" →
      (get_logo_path fs logoDir preset = some (logoDir ++ "/" ++ preset ++ ".png") ↔
        fs.contains (logoDir ++ "/" ++ preset ++ ".png") = true) ∧
      (fs.contains (logoDir ++ "/" ++ preset ++ ".png") = false →
        get_logo_path fs logoDir preset = none) ∧
      logo_exists fs logoDir preset = fs.contains (logoDir ++ "/" ++ preset ++ ".png")) ∧
    (∀ fs₂ : List String, (∀ q : String, fs.contains q = fs₂.contains q) →
      get_logo_path fs logoDir preset = get_logo_path fs₂ logoDir preset) := by
  refine ⟨rfl, rfl, ?_, ?_⟩
  · intro hp
    refine ⟨?_, ?_, ?_⟩
    · unfold get_logo_path
      rw [if_neg hp]
      by_cases hc : fs.contains (logoDir ++ "/" ++ preset ++ ".png") = true
      · simp [hc]
      · simp [hc]
    · intro hc
      unfold get_logo_path
      rw [if_neg hp]
      have hc2 : ¬ (fs.contains (logoDir ++ "/" ++ preset ++ ".png") = true) := by
        rw [hc]
        exact Bool.false_ne_true
      show (if fs.contains (logoDir ++ "/" ++ preset ++ ".png") = true then
          some (logoDir ++ "/" ++ preset ++ ".png") else none) = none
      rw [if_neg hc2]
    · unfold logo_exists
      rw [if_neg hp]
  · intro fs₂ hsame
    by_cases hp : preset = "none"
    · unfold get_logo_path
      rw [if_pos hp, if_pos hp]
    · unfold get_logo_path
      rw [if_neg hp, if_neg hp]
      show (if fs.contains (logoDir ++ "/" ++ preset ++ ".png") = true then
          some (logoDir ++ "/" ++ preset ++ ".png") else none) =
        (if fs₂.contains (logoDir ++ "/" ++ preset ++ ".png") = true then
          some (logoDir ++ "/" ++ preset ++ ".png") else none)
      rw [hsame]

theorem c7_logo_resolution_witness :
    get_logo_path ["dir/lakeb2b.png"] "dir" "lakeb2b" =
        some ("dir" ++ "/" ++ "lakeb2b" ++ ".png") ↔
      List.contains ["dir/lakeb2b.png"] ("dir" ++ "/" ++ "lakeb2b" ++ ".png") = true :=
  ((c7_logo_resolution ["dir/lakeb2b.png"] "dir" "lakeb2b").2.2.1 (by decide)).1

/-- Claim C8: the built FFmpeg invocation never includes an overlay
(compositing) stage when no logo path is supplied — every argument other
than the caller-chosen paths is overlay-free while the delogo filter is
present — and always includes a filter graph with both a delogo filter
and an overlay filter compositing the logo scaled to a fixed 120px width
when a logo path is supplied. -/
theorem c8_overlay_stage :
    (∀ (ip op : String) (r : Region) (pos : String),
      ∀ a ∈ buildCommand ip op r none pos,
        a = ip ∨ a = op ∨ ¬ ("overlay".data <:+: a.data)) ∧
    (∀ (ip op : String) (r : Region) (pos : String),
      delogoFilter r ∈ buildCommand ip op r none pos ∧
      "delogo".data <:+: (delogoFilter r).data) ∧
    (∀ (ip op lp : String) (r : Region) (pos : String),
      filterComplexWithLogo r (getLogoPosition pos) ∈ buildCommand ip op r (some lp) pos ∧
      "delogo".data <:+: (filterComplexWithLogo r (getLogoPosition pos)).data ∧
      "overlay=".data <:+: (filterComplexWithLogo r (getLogoPosition pos)).data ∧
      "scale=120:-1".data <:+: (filterComplexWithLogo r (getLogoPosition pos)).data) := by
  have hdelogo : ∀ r : Region, "delogo".data <:+: (delogoFilter r).data := by
    intro r
    have h1 : "delogo".data <+: "delogo=x=".data := by decide
    have h3 : "delogo=x=".data <+: (delogoFilter r).data := by
      simp only [delogoFilter, String.data_append, List.append_assoc]
      exact ⟨_, rfl⟩
    exact (h1.trans h3).isInfix
  refine ⟨?_, ?_, ?_⟩
  · intro ip op r pos a ha
    simp only [buildCommand, List.mem_cons, List.not_mem_nil, or_false] at ha
    rcases ha with rfl|rfl|rfl|rfl|rfl|rfl|rfl|rfl|rfl|rfl|rfl|rfl|rfl|rfl|rfl|rfl|rfl <;>
      first
        | exact Or.inl rfl
        | exact Or.inr (Or.inl rfl)
        | exact Or.inr (Or.inr (no_overlay_in_delogoFilter r))
        | exact Or.inr (Or.inr (by decide))
  · intro ip op r pos
    exact ⟨by simp [buildCommand], hdelogo r⟩
  · intro ip op lp r pos
    refine ⟨by simp [buildCommand], ?_, ?_, ?_⟩
    · have h := mem_infix_of_middle "[0:v]".data
        (filterGlue.data ++ ((getLogoPosition pos).data ++ ":format=auto[out]".data))
        (hdelogo r)
      simpa [filterComplexWithLogo, String.data_append, List.append_assoc] using h
    · have h0 : "overlay=".data <:+: filterGlue.data := by decide
      have h := mem_infix_of_middle ("[0:v]".data ++ (delogoFilter r).data)
        ((getLogoPosition pos).data ++ ":format=auto[out]".data) h0
      simpa [filterComplexWithLogo, String.data_append, List.append_assoc] using h
    · have h0 : "scale=120:-1".data <:+: filterGlue.data := by decide
      have h := mem_infix_of_middle ("[0:v]".data ++ (delogoFilter r).data)
        ((getLogoPosition pos).data ++ ":format=auto[out]".data) h0
      simpa [filterComplexWithLogo, String.data_append, List.append_assoc] using h

/-- Claim C10: `VideoProcessor.process` is total in its error reporting:
it always returns a (success, error-message) pair — success with no
message or failure with one — and any exception raised inside its body is
caught and returned as a failure carrying the exception's message. -/
theorem c10_total_error_reporting :
    (∀ (env : ProcEnv) (ip op lp wp : String),
      process env ip op lp wp = (true, none) ∨
        ∃ m, process env ip op lp wp = (false, some m)) ∧
    (∀ (env : ProcEnv) (ip op lp wp e : String),
      processBody env ip op lp wp = .error e →
        process env ip op lp wp = (false, some e)) := by
  constructor
  · intro env ip op lp wp
    unfold process processBody
    cases henv : env.raised with
    | some e => exact Or.inr ⟨e, rfl⟩
    | none =>
      cases hprobe : env.probe with
      | none => exact Or.inr ⟨_, rfl⟩
      | some streams =>
        dsimp only
        cases hfind : findVideoStream streams with
        | none => exact Or.inr ⟨_, rfl⟩
        | some vs => exact runResult_shape _ _ _
  · intro env ip op lp wp e he
    unfold process
    rw [he]

theorem c10_total_error_reporting_witness :
    process c10Env "in.mp4" "out.mp4" "none" "bottom-right" = (false, some "boom") :=
  c10_total_error_reporting.2 c10Env "in.mp4" "out.mp4" "none" "bottom-right" "boom" rfl

/-- Claim C1 counterexample: on the processing-failure path the handler
deletes only the input file (main.py line 231); an output file FFmpeg
created before failing is never deleted — created once, deleted zero
times — so not every temporary file created by the job is deleted on that
terminal path. -/
theorem c1_counterexample :
    (processVideo c1Env).1 = .processingError (some "FFmpeg error: boom") ∧
    (processVideo c1Env).2.count (Ev.create .output) = 1 ∧
    (processVideo c1Env).2.count (Ev.delete .output) = 0 := by decide

/-- Claim C1 (amended): no temporary file is ever deleted twice; the input
file, once created, is deleted exactly once on every terminal path; on the
delivered and unexpected-exception paths the output file is also deleted
exactly once; but on a processing failure the output file is not deleted
at all — a partial output file created by the failed FFmpeg run is
leaked. -/
theorem c1_cleanup_discipline (env : JobEnv) :
    ((processVideo env).2.count (Ev.delete .input) ≤ 1 ∧
      (processVideo env).2.count (Ev.delete .output) ≤ 1) ∧
    (1 ≤ (processVideo env).2.count (Ev.create .input) →
      (processVideo env).2.count (Ev.delete .input) = 1) ∧
    ((processVideo env).1 = .delivered →
      (processVideo env).2.count (Ev.delete .input) = 1 ∧
      (processVideo env).2.count (Ev.delete .output) = 1) ∧
    (∀ e, (processVideo env).1 = .unexpectedError e →
      (processVideo env).2.count (Ev.delete .input) = 1 ∧
      (processVideo env).2.count (Ev.delete .output) = 1) ∧
    (∀ m, (processVideo env).1 = .processingError m →
      (processVideo env).2.count (Ev.delete .input) = 1 ∧
      (processVideo env).2.count (Ev.delete .output) = 0) := by
  unfold processVideo
  repeat' split
  all_goals simp_all [List.count_cons, List.count_nil]

theorem c1_cleanup_discipline_witness :
    (processVideo c1DeliveredEnv).2.count (Ev.delete .input) = 1 ∧
    (processVideo c1DeliveredEnv).2.count (Ev.delete .output) = 1 :=
  (c1_cleanup_discipline c1DeliveredEnv).2.2.1 (by decide)

/-- Claim C6: when the running byte counter of the uploaded body exceeds
the configured maximum file size, staging aborts with outcome 413
(size-limit, 4xx), the partial input file is created and deleted exactly
once, no permit is ever acquired, and no output file is ever created —
no temporary files are left behind. -/
theorem c6_oversize_upload (env : JobEnv)
    (hext : allowedVideoExtensions.contains env.fileExt = true)
    (hpre : validPresets.contains env.logoPreset = true)
    (hpos : validPositions.contains env.watermarkPosition = true)
    (hraise : env.stageRaises = none)
    (hsize : ∃ k, env.maxFileSize < (List.take k env.chunks).sum) :
    (processVideo env).1 = .sizeError ∧
    statusCode (processVideo env).1 = 413 ∧
    (processVideo env).2 = [.create .input, .delete .input] ∧
    Ev.acquire ∉ (processVideo env).2 ∧
    (processVideo env).2.count (Ev.create .input) = 1 ∧
    (processVideo env).2.count (Ev.delete .input) = 1 ∧
    (processVideo env).2.count (Ev.create .output) = 0 := by
  have hstage : stageFile env.maxFileSize env.chunks 0 = none := by
    rw [stageFile_none_iff env.maxFileSize env.chunks 0 (Nat.zero_le _)]
    simpa using hsize
  have hpv : processVideo env = (.sizeError, [.create .input, .delete .input]) := by
    unfold processVideo
    rw [hext, hpre, hpos, hraise, hstage]
    simp
  rw [hpv]
  refine ⟨rfl, rfl, rfl, by decide, by decide, by decide, by decide⟩

theorem c6_oversize_upload_witness :
    (processVideo c6Env).1 = .sizeError ∧
    statusCode (processVideo c6Env).1 = 413 ∧
    (processVideo c6Env).2 = [.create .input, .delete .input] ∧
    Ev.acquire ∉ (processVideo c6Env).2 ∧
    (processVideo c6Env).2.count (Ev.create .input) = 1 ∧
    (processVideo c6Env).2.count (Ev.delete .input) = 1 ∧
    (processVideo c6Env).2.count (Ev.create .output) = 0 :=
  c6_oversize_upload c6Env rfl rfl rfl rfl ⟨2, by decide⟩

/-- Claim C9: with N permits configured, every reachable state of the
permit pool has at most N transforms in flight — regardless of how many
jobs were submitted — and with N+1 simultaneous requests a state with
exactly N concurrent transforms and one request still waiting is reached;
a state with N+1 concurrent transforms never is. -/
theorem c9_concurrency_bound (permits : Nat) :
    (∀ (jobs : Nat) (s : SemState), SemReach permits jobs s →
      s.transforming ≤ permits) ∧
    (∃ s : SemState, SemReach permits (permits + 1) s ∧
      s.transforming = permits ∧ s.waiting = 1 ∧ s.available = 0) := by
  constructor
  · intro jobs s h
    have hinv := semReach_invariant h
    omega
  · have key : ∀ k, k ≤ permits →
        SemReach permits (permits + 1) ⟨permits + 1 - k, k, 0, permits - k⟩ := by
      intro k
      induction k with
      | zero => intro _; exact SemReach.init
      | succ k ih =>
          intro hk
          have h1 := ih (by omega)
          have h2 : SemReach permits (permits + 1)
              ⟨permits + 1 - k - 1, k + 1, 0, permits - k - 1⟩ :=
            SemReach.step h1
              (SemStep.start
                (show 0 < permits + 1 - k by omega)
                (show 0 < permits - k by omega))
          have heq : (⟨permits + 1 - k - 1, k + 1, 0, permits - k - 1⟩ : SemState) =
              ⟨permits + 1 - (k + 1), k + 1, 0, permits - (k + 1)⟩ := by
            simp only [SemState.mk.injEq, true_and, and_true]
            omega
          rw [heq] at h2
          exact h2
    refine ⟨⟨1, permits, 0, 0⟩, ?_, rfl, rfl, rfl⟩
    have h := key permits (Nat.le_refl _)
    have heq : (⟨permits + 1 - permits, permits, 0, permits - permits⟩ : SemState) =
        ⟨1, permits, 0, 0⟩ := by
      simp only [SemState.mk.injEq, true_and, and_true]
      omega
    rw [heq] at h
    exact h

theorem c9_concurrency_bound_witness :
    (⟨2, 1, 0, 1⟩ : SemState).transforming ≤ 2 :=
  (c9_concurrency_bound 2).1 3 ⟨2, 1, 0, 1⟩
    (SemReach.step SemReach.init
      (SemStep.start (s := initState 3 2) (by decide) (by decide)))

end ChamPDF
